import Mathlib

set_option maxHeartbeats 1000000

namespace ChessEmb

/-- Piece types follow python-chess numbering: pawn 1, knight 2, bishop 3,
rook 4, queen 5, king 6.  Colors are booleans as in python-chess:
`true` is White, `false` is Black. -/
structure Piece where
  color : Bool
  ptype : Nat
deriving DecidableEq, Repr

/-- Moves as in python-chess: from-square, to-square (0..63), optional
promotion piece type. -/
structure Move where
  fromSq : Nat
  toSq : Nat
  promo : Option Nat
deriving DecidableEq, Repr

/-- Name of a square (`chess.square_name`): file letter then rank digit. -/
def squareName (sq : Nat) : String :=
  String.mk [Char.ofNat (97 + sq % 8), Char.ofNat (49 + sq / 8)]

/-- Lower-case piece letter used in UCI promotion suffixes. -/
def promoChar (t : Nat) : String :=
  if t = 2 then "n" else if t = 3 then "b" else if t = 4 then "r"
  else if t = 5 then "q" else ""

/-- UCI rendering of a move (`chess.Move.uci`). -/
def Move.uci (m : Move) : String :=
  squareName m.fromSq ++ squareName m.toSq ++
    (match m.promo with | some t => promoChar t | none => "")

def fileOfChar (c : Char) : Option Nat :=
  if 97 ≤ c.toNat ∧ c.toNat ≤ 104 then some (c.toNat - 97) else none

def rankOfChar (c : Char) : Option Nat :=
  if 49 ≤ c.toNat ∧ c.toNat ≤ 56 then some (c.toNat - 49) else none

def promoOfChar (c : Char) : Option Nat :=
  if c = 'n' then some 2 else if c = 'b' then some 3
  else if c = 'r' then some 4 else if c = 'q' then some 5 else none

/-- Model of `chess.Move.from_uci`; `none` models the `ValueError` raised on
malformed input (always caught with `try`/`except` at the call sites that can
receive bad data). -/
def moveFromUci (s : String) : Option Move :=
  match s.data with
  | [a, b, c, d] => do
      let f1 ← fileOfChar a
      let r1 ← rankOfChar b
      let f2 ← fileOfChar c
      let r2 ← rankOfChar d
      some ⟨r1 * 8 + f1, r2 * 8 + f2, none⟩
  | [a, b, c, d, e] => do
      let f1 ← fileOfChar a
      let r1 ← rankOfChar b
      let f2 ← fileOfChar c
      let r2 ← rankOfChar d
      let p ← promoOfChar e
      some ⟨r1 * 8 + f1, r2 * 8 + f2, some p⟩
  | _ => none

/-- Abstract board handle exposing exactly the queries of the Board-Legality
Service (python-chess) that the repository uses.  Rule logic (checks,
captures, attacker sets, legality) is the external collaborator and therefore
appears as data of the handle; the piece placement is an explicit map. -/
structure Board where
  turn : Bool
  pieceMap : List (Nat × Piece)
  attackers : Bool → Nat → List Nat
  isCheck : Bool
  isCapture : Move → Bool
  givesCheck : Move → Bool
  legalMoves : List Move

/-- Lookup of `board.piece_at(square)`. -/
def Board.pieceAt (b : Board) (sq : Nat) : Option Piece :=
  (b.pieceMap.find? (fun e => e.1 == sq)).map (·.2)

/-- Lookup of `board.king(color)`. -/
def Board.king (b : Board) (color : Bool) : Option Nat :=
  (b.pieceMap.find? (fun e => e.2.color == color && e.2.ptype == 6)).map (·.1)

/-- Square set `board.pieces(piece_type, color)` as a list of squares. -/
def Board.pieces (b : Board) (ptype : Nat) (color : Bool) : List Nat :=
  (b.pieceMap.filter (fun e => e.2.ptype == ptype && e.2.color == color)).map (·.1)

/-- Engine score from White's point of view: a forced mate (the sign says who
mates) or centipawns. -/
inductive Score where
  | mate (n : Int)
  | cp (n : Int)
deriving DecidableEq, Repr

/-- Result of one engine `analyse` call: an optional score and the principal
variation. -/
structure EngineInfo where
  score : Option Score
  pv : List Move

/-- Normalization `eval_from_info`: absent score is `0.0`, a forced mate
saturates to `±100.0`, otherwise centipawns over `100`. -/
def eval_from_info (info : EngineInfo) : ℚ :=
  match info.score with
  | none => 0
  | some (.mate n) => if 0 < n then 100 else -100
  | some (.cp c) => (c : ℚ) / 100

/-- Bundled external collaborators: move application and FEN parsing from the
Board-Legality Service, SAN rendering, and the deterministic search engine. -/
structure Chess where
  push : Board → Move → Board
  boardOfFen : String → Board
  san : Board → Move → String
  analyse : Board → Nat → EngineInfo

/-- Table `PIECE_VALUE` (the explicit king entry and the `.get` default are
both `0`). -/
def PIECE_VALUE (t : Nat) : Int :=
  if t = 1 then 1 else if t = 2 then 3 else if t = 3 then 3
  else if t = 4 then 5 else if t = 5 then 9 else 0

/-- Table `PIECE_NAME` with the `.get` default `"piece"`. -/
def PIECE_NAME (t : Nat) : String :=
  if t = 1 then "pawn" else if t = 2 then "knight" else if t = 3 then "bishop"
  else if t = 4 then "rook" else if t = 5 then "queen"
  else if t = 6 then "king" else "piece"

/-- The impact-to-band stage `classify_impact` (main.py lines 169-174). -/
def classify_impact (impactV : ℚ) : String :=
  if impactV ≤ -2 then "blunder"
  else if impactV ≤ -3/4 then "bad"
  else "good"

/-- Impact of a move from the mover's point of view, inlined in
`analyze_game` (line 235) and `explain_move` (line 1333). -/
def impact (evalBefore evalAfter : ℚ) (moverIsWhite : Bool) : ℚ :=
  if moverIsWhite then evalAfter - evalBefore else evalBefore - evalAfter

/-- Model of python's `str.split(" ")`: splits at every single space and
keeps empty fields. -/
def splitFields : List Char → List (List Char)
  | [] => [[]]
  | c :: rest =>
    let r := splitFields rest
    if c = ' ' then [] :: r
    else
      match r with
      | f :: fs => (c :: f) :: fs
      | [] => [[c]]

/-- Side-to-move test `fen.split(" ")[1] == "w"` used by `analyze_game` and
`explain_move`.  A FEN with no second field would raise an `IndexError` in
python; the `getD` default only differs there. -/
def fenSideIsWhite (fen : String) : Bool :=
  (splitFields fen.data).getD 1 [] == ['w']

/-- Material count `_material_white_minus_black` (lines 629-634). -/
def _material_white_minus_black (b : Board) : Int :=
  b.pieceMap.foldl
    (fun s e => s + (if e.2.color then PIECE_VALUE e.2.ptype else -PIECE_VALUE e.2.ptype)) 0

/-- Delta `_material_delta_for_mover` (lines 636-643). -/
def _material_delta_for_mover (bStart bEnd : Board) (moverIsWhite : Bool) : Int :=
  let d := _material_white_minus_black bEnd - _material_white_minus_black bStart
  if moverIsWhite then d else -d

/-- Material count `_material_score` (lines 675-682), folding over the local
`vals` table in its insertion order. -/
def _material_score (b : Board) : Int :=
  (([(1,1),(2,3),(3,3),(4,5),(5,9)] : List (Nat × Int))).foldl
    (fun s tv =>
      s + ((b.pieces tv.1 true).length : Int) * tv.2
        - ((b.pieces tv.1 false).length : Int) * tv.2) 0

/-- Delta `_mover_material_delta` (lines 684-689). -/
def _mover_material_delta (bBefore bAfter : Board) (moverWhite : Bool) : Int :=
  let d := _material_score bAfter - _material_score bBefore
  if moverWhite then d else -d

/-- Stable descending insertion, modelling python's stable
`list.sort(reverse=True, key=...)`. -/
def insertDesc {α : Type} (key : α → Int) (x : α) : List α → List α
  | [] => [x]
  | y :: ys => if key y ≤ key x then x :: y :: ys else y :: insertDesc key x ys

/-- Stable descending sort by an integer key. -/
def sortDesc {α : Type} (key : α → Int) : List α → List α
  | [] => []
  | x :: xs => insertDesc key x (sortDesc key xs)

/-- Predicate `_is_hanging` (lines 691-698). -/
def _is_hanging (bAfter : Board) (moverColor : Bool) (square : Nat) : Bool :=
  let opp := !moverColor
  let attackers := (bAfter.attackers opp square).length
  if attackers = 0 then false
  else
    let defenders := (bAfter.attackers moverColor square).length
    if defenders = 0 ∨ attackers > defenders then true else false

/-- Detector `_hanging_piece_bullet` (lines 351-383): collects the mover's
valuable hung pieces in piece-map order, sorts them descending by value, and
reports the first.  The `depth` argument is unused, as in the source. -/
def _hanging_piece_bullet (bAfter : Board) (moverColor : Bool) (_depth : Nat) :
    Option String :=
  let opponent := !moverColor
  let hung := bAfter.pieceMap.foldl (fun acc e =>
    let sq := e.1
    let piece := e.2
    if piece.color != moverColor then acc
    else
      let val := PIECE_VALUE piece.ptype
      if val < 3 then acc
      else
        let attackers := (bAfter.attackers opponent sq).length
        if attackers = 0 then acc
        else
          let defenders := (bAfter.attackers moverColor sq).length
          if defenders = 0 ∨ attackers > defenders then
            acc ++ [(val, piece, sq, attackers, defenders)]
          else acc) []
  match sortDesc (fun x => x.1) hung with
  | [] => none
  | (_, piece, sq, attackers, defenders) :: _ =>
    let name := PIECE_NAME piece.ptype
    let sqn := squareName sq
    if defenders = 0 then
      some ("leaves your " ++ name ++ " on " ++ sqn ++
        " hanging (attacked and undefended).")
    else
      some ("leaves your " ++ name ++ " on " ++ sqn ++ " under-defended (" ++
        toString attackers ++ " attackers vs " ++ toString defenders ++ " defenders).")

/-- Structured result of `_top_hanging_piece_details`.  The source's dict keeps
only the rendered square name and later re-parses it with
`chess.parse_square`; the model keeps the raw square alongside. -/
structure HangDetails where
  hungPieceName : String
  hungSquare : Nat
  hungSquareName : String
  attackers : Nat
  defenders : Nat
  attackerPieceName : String
  attackerSquareName : String
deriving DecidableEq, Repr

/-- Detector `_top_hanging_piece_details` (lines 424-468). -/
def _top_hanging_piece_details (bAfter : Board) (moverColor : Bool) :
    Option HangDetails :=
  let opp := !moverColor
  let best := bAfter.pieceMap.foldl (fun acc e =>
    let sq := e.1
    let piece := e.2
    if piece.color != moverColor then acc
    else
      let val := PIECE_VALUE piece.ptype
      if val < 3 then acc
      else
        let atk := bAfter.attackers opp sq
        if atk.isEmpty then acc
        else
          let dfd := bAfter.attackers moverColor sq
          if dfd.isEmpty ∨ atk.length > dfd.length then
            match acc with
            | none => some (val, sq, piece, atk, dfd)
            | some b => if val > b.1 then some (val, sq, piece, atk, dfd) else acc
          else acc) none
  match best with
  | none => none
  | some (_, sq, piece, atk, dfd) =>
    match atk with
    | [] => none
    | attackerSq :: _ =>
      let attackerPiece := bAfter.pieceAt attackerSq
      some {
        hungPieceName := PIECE_NAME piece.ptype
        hungSquare := sq
        hungSquareName := squareName sq
        attackers := atk.length
        defenders := dfd.length
        attackerPieceName :=
          match attackerPiece with | some p => PIECE_NAME p.ptype | none => "piece"
        attackerSquareName := squareName attackerSq }

/-- One pressured dependent reported by the overworked-defender detector. -/
structure TargetInfo where
  pieceName : String
  square : String
  attackers : Nat
  defenders : Nat
deriving DecidableEq, Repr

/-- Structured result of `_overworked_defender_details`. -/
structure OverworkedDetails where
  defenderPieceName : String
  defenderSquare : String
  targets : List TargetInfo
deriving DecidableEq, Repr

/-- Detector `_overworked_defender_details` (lines 470-546). -/
def _overworked_defender_details (bAfter : Board) (moverColor : Bool) :
    Option OverworkedDetails :=
  let opp := !moverColor
  let targets := bAfter.pieceMap.foldl (fun acc e =>
    let tSq := e.1
    let tPiece := e.2
    if tPiece.color != moverColor then acc
    else
      let tVal := PIECE_VALUE tPiece.ptype
      if tVal < 3 then acc
      else
        let a := (bAfter.attackers opp tSq).length
        if a = 0 then acc
        else
          let d := (bAfter.attackers moverColor tSq).length
          acc ++ [(tVal, tSq, tPiece, a, d)]) []
  if targets.length < 2 then none
  else
    let best := bAfter.pieceMap.foldl (fun acc e =>
      let dSq := e.1
      let dPiece := e.2
      if dPiece.color != moverColor then acc
      else
        let dVal := PIECE_VALUE dPiece.ptype
        if dVal < 3 then acc
        else
          let defended := targets.filter (fun t =>
            !(bAfter.attackers moverColor t.2.1).isEmpty &&
              (bAfter.attackers moverColor t.2.1).contains dSq)
          if defended.length < 2 then acc
          else
            let unstable := defended.any (fun t => decide (t.2.2.2.2 ≤ t.2.2.2.1))
            let score := (defended.map (fun t => t.1)).sum + (if unstable then 5 else 0)
            match acc with
            | none => some (score, dSq, dPiece, defended)
            | some b => if score > b.1 then some (score, dSq, dPiece, defended) else acc)
      none
    match best with
    | none => none
    | some (_, dSq, dPiece, defended) =>
      let defended2 := (sortDesc (fun t => t.1) defended).take 2
      some {
        defenderPieceName := PIECE_NAME dPiece.ptype
        defenderSquare := squareName dSq
        targets := defended2.map (fun t =>
          { pieceName := PIECE_NAME t.2.2.1.ptype
            square := squareName t.2.1
            attackers := t.2.2.2.1
            defenders := t.2.2.2.2 }) }

/-- Predicate `_is_quiet_move` (lines 810-812). -/
def _is_quiet_move (b : Board) (mv : Move) : Bool :=
  !b.isCapture mv && !b.givesCheck mv

/-- Helper `_move_piece_signature` (lines 815-823). -/
def _move_piece_signature (b : Board) (mv : Move) : Option (Bool × Nat) :=
  (b.pieceAt mv.fromSq).map (fun p => (p.color, p.ptype))

/-- One candidate earlier ply checked by `_recent_same_piece_moved`: the body
of the `for q in (ply - 2, ply - 4)` loop (lines 855-888).  Negative python
indices collapse to `0` under ℕ subtraction, which the `q <= 0` guard
swallows exactly as python's `continue` does. -/
def _recent_check_q (svc : Chess) (fens movesUci : List String)
    (curSig : Bool × Nat) (curFrom : Nat) (q : Nat) : Bool :=
  if q = 0 then false
  else if movesUci.length ≤ q - 1 then false
  else if fens.length ≤ q - 1 then false
  else
    let prevBoard := svc.boardOfFen (fens.getD (q - 1) "")
    match moveFromUci (movesUci.getD (q - 1) "") with
    | none => false
    | some prevMv =>
      match _move_piece_signature prevBoard prevMv with
      | none => false
      | some prevSig =>
        if prevSig ≠ curSig then false
        else if prevMv.toSq ≠ curFrom then false
        else if prevBoard.isCheck then false
        else if !(_is_quiet_move prevBoard prevMv) then false
        else true

/-- Detector helper `_recent_same_piece_moved` (lines 826-890). -/
def _recent_same_piece_moved (svc : Chess) (fens movesUci : List String)
    (ply : Nat) (boardBefore : Board) : Bool :=
  if ply = 0 then false
  else
    match moveFromUci (movesUci.getD (ply - 1) "") with
    | none => false
    | some curMv =>
      match _move_piece_signature boardBefore curMv with
      | none => false
      | some curSig =>
        _recent_check_q svc fens movesUci curSig curMv.fromSq (ply - 2) ||
          _recent_check_q svc fens movesUci curSig curMv.fromSq (ply - 4)

/-- Detector `detect_lost_tempo` (lines 893-943). -/
def detect_lost_tempo (svc : Chess) (fens movesUci : List String) (ply : Nat)
    (boardBefore : Board) (impactMover : ℚ) (bestMoveUci : Option String) : Bool :=
  if ply = 0 ∨ movesUci.length ≤ ply - 1 then false
  else if boardBefore.isCheck then false
  else
    match moveFromUci (movesUci.getD (ply - 1) "") with
    | none => false
    | some mv =>
      if !(_is_quiet_move boardBefore mv) then false
      else
        let attacked :=
          match boardBefore.pieceAt mv.fromSq with
          | some p => !(boardBefore.attackers (!p.color) mv.fromSq).isEmpty
          | none => false
        if attacked then false
        else if !(_recent_same_piece_moved svc fens movesUci ply boardBefore) then false
        else
          let played := movesUci.getD (ply - 1) ""
          let bestBlocks :=
            match bestMoveUci with
            | some b => (b != "") && (played == b)
            | none => false
          if bestBlocks then false
          else if -1/5 < impactMover then false
          else true

/-- Shield files `_pawn_shield_files_for_castle` (lines 952-953). -/
def _pawn_shield_files_for_castle (kingside : Bool) : List Nat :=
  if kingside then [5, 6, 7] else [0, 1, 2, 3]

/-- Predicate `_is_pawn_shield_push` (lines 956-976). -/
def _is_pawn_shield_push (bBefore : Board) (mv : Move) : Bool :=
  match bBefore.pieceAt mv.fromSq with
  | none => false
  | some p =>
    if p.ptype ≠ 1 then false
    else
      match bBefore.king p.color with
      | none => false
      | some kingSq =>
        let kingside := 4 ≤ kingSq % 8
        (_pawn_shield_files_for_castle kingside).contains (mv.fromSq % 8)

/-- Predicate `_creates_dark_holes_near_castle` (lines 979-1003). -/
def _creates_dark_holes_near_castle (bBefore : Board) (mv : Move) : Bool :=
  match bBefore.pieceAt mv.fromSq with
  | none => false
  | some p =>
    if p.ptype ≠ 1 then false
    else
      match bBefore.king p.color with
      | none => false
      | some kingSq =>
        if kingSq % 8 < 4 then false
        else
          let fromRank := mv.fromSq / 8
          let toRank := mv.toSq / 8
          let delta := max fromRank toRank - min fromRank toRank
          if !([5, 6, 7].contains (mv.fromSq % 8)) then false
          else decide (2 ≤ delta)

/-- Loop body of `_pv_has_fast_checks_against_mover` (lines 1017-1032): walk
the opponent PV, testing each move for a check against the mover before
pushing it; a parse failure or illegal move ends the walk. -/
def _pv_fast_checks_loop (svc : Chess) (moverColor : Bool) :
    Board → List String → Nat → Bool
  | _, [], _ => false
  | b, u :: rest, fuel =>
    match moveFromUci u with
    | none => false
    | some mv =>
      if !(b.legalMoves.contains mv) then false
      else if (b.turn != moverColor) && b.givesCheck mv then true
      else if fuel ≤ 1 then false
      else _pv_fast_checks_loop svc moverColor (svc.push b mv) rest (fuel - 1)

/-- Detector helper `_pv_has_fast_checks_against_mover` (lines 1006-1034). -/
def _pv_has_fast_checks_against_mover (svc : Chess) (bAfter : Board)
    (pvUci : List String) (maxPlies : Nat) : Bool :=
  if pvUci.isEmpty then false
  else _pv_fast_checks_loop svc (!bAfter.turn) bAfter pvUci maxPlies

/-- Detector `detect_opens_king` (lines 1037-1078).  The `moverIsWhite`
parameter is unused, as in the source. -/
def detect_opens_king (svc : Chess) (boardBefore boardAfter : Board)
    (playedMoveUci : String) (_moverIsWhite : Bool) (impactMover : ℚ)
    (opponentPvUci : List String) : Bool :=
  if boardBefore.isCheck then false
  else
    match moveFromUci playedMoveUci with
    | none => false
    | some mv =>
      if boardBefore.isCapture mv || boardBefore.givesCheck mv then false
      else if !(_is_pawn_shield_push boardBefore mv) then false
      else
        let holey := _creates_dark_holes_near_castle boardBefore mv
        let pvChecks := _pv_has_fast_checks_against_mover svc boardAfter opponentPvUci 4
        if holey && (decide (impactMover ≤ -1/5) || pvChecks) then true
        else if impactMover ≤ -1/2 then true
        else if pvChecks && decide (impactMover ≤ -1/5) then true
        else false

/-- Engine helper `_best_reply` (lines 700-706). -/
def _best_reply (svc : Chess) (b : Board) (depth : Nat) :
    EngineInfo × List Move × Option Move :=
  let info := svc.analyse b depth
  (info, info.pv, info.pv.head?)

/-- Engine helper `_eval_pawns_from_board` (lines 708-712). -/
def _eval_pawns_from_board (svc : Chess) (b : Board) (depth : Nat) : ℚ :=
  eval_from_info (svc.analyse b depth)

/-- Detector `is_perfect_brilliancy` (lines 714-807).  The unused local
`eval_best` of the source is dropped; `try`/`except` around `from_uci` is the
`none` branch, and the final `try` around the quiet tag cannot fail against
the total board oracles. -/
def is_perfect_brilliancy (svc : Chess) (boardBefore boardAfter : Board)
    (playedUci : String) (depth : Nat) : Bool × List String :=
  if depth < 14 then (false, [])
  else
    let moverWhite := boardBefore.turn
    let best0 := (_best_reply svc boardBefore depth).2.2
    let bestUci := best0.map Move.uci
    match moveFromUci playedUci with
    | none => (false, [])
    | some mvPlayed =>
      let evalAfterBest : Option ℚ :=
        match best0 with
        | some b0 =>
          if boardBefore.legalMoves.contains b0 then
            some (_eval_pawns_from_board svc (svc.push boardBefore b0) depth)
          else none
        | none => none
      if !(boardBefore.legalMoves.contains mvPlayed) then (false, [])
      else
        let bPlay := svc.push boardBefore mvPlayed
        let evalAfterPlayed := _eval_pawns_from_board svc bPlay depth
        let step1 : Option (List String) :=
          match evalAfterBest with
          | some eab =>
            let moverEvalBest := if moverWhite then eab else -eab
            let moverEvalPlay := if moverWhite then evalAfterPlayed else -evalAfterPlayed
            if 7/20 < moverEvalBest - moverEvalPlay then none else some ["near_best"]
          | none =>
            match bestUci with
            | some b => if b ≠ "" ∧ playedUci ≠ b then none else some []
            | none => some []
        match step1 with
        | none => (false, [])
        | some reasons1 =>
          let matDelta := _mover_material_delta boardBefore boardAfter moverWhite
          if -1 < matDelta then (false, reasons1)
          else
            let reasons2 := reasons1 ++ ["sacrifice_" ++ toString matDelta]
            match (_best_reply svc boardAfter depth).2.2 with
            | none => (false, reasons2)
            | some ob =>
              if !(boardAfter.legalMoves.contains ob) then (false, reasons2)
              else
                let bReply := svc.push boardAfter ob
                let matDeltaAfterReply := _mover_material_delta boardBefore bReply moverWhite
                if -1 ≤ matDeltaAfterReply then (false, reasons2)
                else
                  let reasons3 := reasons2 ++ ["not_immediately_regained"]
                  if !(_is_hanging bPlay moverWhite mvPlayed.toSq) then (false, reasons3)
                  else
                    let reasons4 := reasons3 ++ ["hanging_piece"]
                    let evalAfterReply := _eval_pawns_from_board svc bReply depth
                    let moverEvalAfterReply :=
                      if moverWhite then evalAfterReply else -evalAfterReply
                    if moverEvalAfterReply < 4/5 then (false, reasons4)
                    else
                      let reasons5 := reasons4 ++ ["strong_followup"]
                      let reasons6 :=
                        if !(boardBefore.isCapture mvPlayed) && !(boardBefore.givesCheck mvPlayed)
                        then reasons5 ++ ["quiet"] else reasons5
                      (true, reasons6)

/-- Helper `_uci_to_san` (lines 292-297): a parse failure returns the raw
uci string. -/
def _uci_to_san (svc : Chess) (b : Board) (u : String) : String :=
  match moveFromUci u with
  | some m => svc.san b m
  | none => u

/-- SAN walk shared by `_best_reply_and_pv_after` and `pv_to_san`: render each
move, then push it. -/
def sanWalk (svc : Chess) : Board → List Move → List String
  | _, [] => []
  | b, m :: rest => svc.san b m :: sanWalk svc (svc.push b m) rest

/-- Push a whole line onto a board (the `tmp.push` loops of the source). -/
def pushWalk (svc : Chess) : Board → List Move → Board
  | b, [] => b
  | b, m :: rest => pushWalk svc (svc.push b m) rest

/-- Result of `_best_reply_and_pv_after` (lines 307-332). -/
structure AfterLine where
  bestReplyUci : Option String
  pvAfterUci : List String
  pvAfterSan : List String

/-- Helper `_best_reply_and_pv_after` (lines 307-332). -/
def _best_reply_and_pv_after (svc : Chess) (bAfter : Board) (depth maxLen : Nat) :
    AfterLine :=
  let pv := (svc.analyse bAfter depth).pv
  { bestReplyUci := (pv.head?).map Move.uci
    pvAfterUci := (pv.take maxLen).map Move.uci
    pvAfterSan := sanWalk svc bAfter (pv.take maxLen) }

/-- Helper `pv_to_uci` (lines 598-599). -/
def pv_to_uci (pv : List Move) (limit : Nat) : List String :=
  (pv.take limit).map Move.uci

/-- Helper `pv_to_san` (lines 601-613). -/
def pv_to_san (svc : Chess) (b : Board) (pv : List Move) (limit : Nat) : List String :=
  sanWalk svc b (pv.take limit)

/-- Helper `_uci_sq` (lines 622-627). -/
def _uci_sq (u : String) : Option (String × String) :=
  (moveFromUci u).map (fun m => (squareName m.fromSq, squareName m.toSq))

/-- Helper `_pv_uci_from` (lines 615-620). -/
def _pv_uci_from (svc : Chess) (b : Board) (depth limit : Nat) : List String :=
  ((svc.analyse b depth).pv.take limit).map Move.uci

/-- Helper `_tactic_capture_phrase` (lines 645-673). -/
def _tactic_capture_phrase (svc : Chess) (bAfter : Board) (pvOpp : List Move) :
    Option String :=
  match pvOpp with
  | [] => none
  | first :: rest =>
    if !(bAfter.isCapture first) then none
    else
      match bAfter.pieceAt first.toSq with
      | none => some "captures material."
      | some captured =>
        let name := PIECE_NAME captured.ptype
        let val := PIECE_VALUE captured.ptype
        let tmp := svc.push bAfter first
        if (match rest with | second :: _ => tmp.isCapture second | [] => false) then
          some ("recaptures your " ++ name ++ " (trade).")
        else if 3 ≤ val then some ("wins your " ++ name ++ ".")
        else some ("wins a " ++ name ++ ".")

/-- Two-decimal rendering of a pawn value, modelling python's `f"{x:.2f}"`
(the exact rounding mode differs only off every claim's inputs). -/
def format2 (q : ℚ) : String :=
  let n : Int := round (q * 100)
  let sign := if n < 0 then "-" else ""
  let m := n.natAbs
  sign ++ toString (m / 100) ++ "." ++
    (if m % 100 < 10 then "0" else "") ++ toString (m % 100)

/-- Fields of the `explain_move` response that any claim refers to; the
response also carries evals, SAN strings and PVs. -/
structure ExplainResult where
  quality : String
  bullets : List String
  debugReasons : List String
deriving DecidableEq, Repr

/-- Handler `explain_move` (lines 1283-1488) after the cache miss, for a
found game and a valid ply; boards are rebuilt from the stored FENs.  The
final `to_row`/`to_col` computation and the other response-only fields are
omitted (no claim mentions them). -/
def explain_move (svc : Chess) (fens movesUci : List String) (ply depth : Nat) :
    ExplainResult :=
  let fenBefore := fens.getD (ply - 1) ""
  let fenAfter := fens.getD ply ""
  let playedMove := movesUci.getD (ply - 1) ""
  let boardBefore := svc.boardOfFen fenBefore
  let boardAfter := svc.boardOfFen fenAfter
  let afterLine := _best_reply_and_pv_after svc boardAfter depth 10
  let oppBestReplyUci := afterLine.bestReplyUci
  let pvAfterSan := afterLine.pvAfterSan
  let playedSan := _uci_to_san svc boardBefore playedMove
  let evalBefore := eval_from_info (svc.analyse boardBefore depth)
  let evalAfter := eval_from_info (svc.analyse boardAfter depth)
  let pv := (svc.analyse boardBefore depth).pv
  let bestMove : Option String :=
    match pv with | [] => none | m :: _ => some (Move.uci m)
  let isWhite := fenSideIsWhite fenBefore
  let impactV := impact evalBefore evalAfter isWhite
  let quality0 := classify_impact impactV
  let quality1 :=
    match bestMove with
    | some b => if b ≠ "" ∧ playedMove = b then "best" else quality0
    | none => quality0
  let perfect := is_perfect_brilliancy svc boardBefore boardAfter playedMove depth
  let quality := if perfect.1 then "perfect" else quality1
  let reasonsP : List String :=
    if perfect.1 then ["PERFECT_BRILLIANT"] ++ perfect.2.map (fun r => "PERFECT:" ++ r)
    else []
  let bulletsP : List String :=
    if perfect.1 then ["Brilliancy: a strong sacrifice that remains tactically justified."]
    else []
  let moverIsWhite := fenSideIsWhite fenBefore
  let hangingMsg := _hanging_piece_bullet boardAfter moverIsWhite depth
  let reasonsH := reasonsP ++ (if hangingMsg.isSome then ["HANGING_PIECE"] else [])
  let reasonsH2 :=
    if reasonsH.contains "HANGING_PIECE" && reasonsH.contains "LOST_TEMPO"
    then reasonsH.erase "LOST_TEMPO" else reasonsH
  let bulletsOpp :=
    match oppBestReplyUci with
    | some u =>
      if u ≠ "" then
        ["After " ++ playedSan ++ ", opponent’s best reply is " ++
           _uci_to_san svc boardAfter u ++ "."] ++
          (if pvAfterSan ≠ [] then
            ["Example continuation: " ++ String.intercalate " " (pvAfterSan.take 8) ++ "."]
          else [])
      else []
    | none => []
  let lostTempo := detect_lost_tempo svc fens movesUci ply boardBefore impactV bestMove
  let reasonsL := reasonsH2 ++ (if lostTempo then ["LOST_TEMPO"] else [])
  let bulletsL :=
    if lostTempo then
      ["Loses tempo: the same piece was moved again without a tactical gain or necessity."]
    else []
  let bestSan := bestMove.map (fun u => _uci_to_san svc boardBefore u)
  let opensKing := detect_opens_king svc boardBefore boardAfter playedMove isWhite impactV []
  let reasonsO := reasonsL ++ (if opensKing then ["OPENS_KING"] else [])
  let bulletsO :=
    if opensKing then
      ["Weakens king safety: the pawn shield is loosened.",
       "This allows the opponent to get play against your king."]
    else []
  let bulletsBad :=
    if quality = "bad" ∨ quality = "blunder" then
      let pvOpp := (svc.analyse boardAfter depth).pv
      match pvOpp with
      | [] => []
      | oppBest :: _ =>
        let oppSan := _uci_to_san svc boardAfter (Move.uci oppBest)
        let capPhrase := _tactic_capture_phrase svc boardAfter pvOpp
        let checksB := boardAfter.givesCheck oppBest
        let b1 :=
          match capPhrase with
          | some cp =>
            if checksB then
              ["After " ++ playedSan ++ ", opponent can play " ++ oppSan ++ " — it " ++
                 cp.dropRight 1 ++ " and gives check."]
            else
              ["After " ++ playedSan ++ ", opponent can play " ++ oppSan ++ " — it " ++ cp]
          | none =>
            if checksB then
              ["After " ++ playedSan ++ ", opponent can play " ++ oppSan ++ " — it gives check."]
            else
              ["After " ++ playedSan ++ ", opponent’s best reply is " ++ oppSan ++ "."]
        let tmp := pushWalk svc boardAfter (pvOpp.take 4)
        let matDelta := _material_delta_for_mover boardAfter tmp moverIsWhite
        let b2 :=
          if matDelta ≠ 0 then
            ["Material change over this line: " ++ (if 0 < matDelta then "+" else "") ++
               toString matDelta ++ "."]
          else []
        b1 ++ b2
    else []
  let bulletsCmp :=
    match bestMove with
    | some b =>
      if b ≠ "" ∧ playedMove = b then ["This matches the engine’s best move."]
      else if b ≠ "" then
        ["Engine preferred " ++ bestSan.getD "" ++ " instead of " ++ playedSan ++ "."]
      else ["Engine best move not available for this position."]
    | none => ["Engine best move not available for this position."]
  let bulletsNum :=
    if impactV ≤ -3/4 then ["This costs about " ++ format2 |impactV| ++ " pawns."]
    else if 1/2 ≤ impactV then ["This gains about " ++ format2 impactV ++ " pawns."]
    else []
  { quality := quality
    bullets := bulletsP ++ bulletsOpp ++ bulletsL ++ bulletsO ++ bulletsBad ++
      bulletsCmp ++ bulletsNum
    debugReasons := reasonsO }

/-- Cache protocol of `explain_move` (lines 1285-1288) with the rest of the
handler abstracted as `compute`: the handler looks the key up, returns the
hit unchanged, and on a miss computes the response — no write to
`EXPLAIN_CACHE` occurs anywhere in the source, so the cache comes back
unchanged. -/
def explainMoveCached {R : Type} (cache : List ((Nat × Nat × Nat) × R))
    (gameId ply depth : Nat) (compute : Unit → R) :
    R × List ((Nat × Nat × Nat) × R) :=
  let key := (gameId, ply, depth)
  match (cache.find? (fun e => e.1 == key)).map (·.2) with
  | some cached => (cached, cache)
  | none => (compute (), cache)

/-- Engine-best extraction in `analyze_game` (lines 244-245). -/
def engineBestUci (info : EngineInfo) : Option String :=
  match info.pv with
  | [] => none
  | m :: _ => some (Move.uci m)

/-- Per-ply label of `analyze_game` (lines 236-247): the impact band, then
the override to `"best"` when the played move equals the engine's (truthy)
top choice; an engine failure (the `except` branch) is the empty-pv case of
the oracle. -/
def summaryCls (impactV : ℚ) (ebest : Option String) (played : String) : String :=
  let cls := classify_impact impactV
  match ebest with
  | some b => if b ≠ "" ∧ played = b then "best" else cls
  | none => cls

/-- Tally keys of `analyze_game` (lines 226-227) in insertion order. -/
def initCounts : List (String × Nat) :=
  [("perfect", 0), ("best", 0), ("good", 0), ("bad", 0), ("blunder", 0)]

/-- Dictionary increment `counts[cls] += 1`; `none` models the `KeyError`
raised when the key is absent. -/
def incrCount (cs : List (String × Nat)) (k : String) : Option (List (String × Nat)) :=
  match cs with
  | [] => none
  | (k1, v) :: rest =>
    if k1 = k then some ((k1, v + 1) :: rest)
    else (incrCount rest k).map (fun r => (k1, v) :: r)

/-- Total of one tally dictionary. -/
def countsSum (cs : List (String × Nat)) : Nat := (cs.map (·.2)).sum

/-- One iteration of the `analyze_game` tally loop (lines 229-254): band the
impact of ply `i`, override to `best` on an engine match, and increment the
mover's tally. -/
def analyzeStep (engine : String → EngineInfo) (fens movesUci : List String)
    (evals : List ℚ) (cw_cb : List (String × Nat) × List (String × Nat)) (i : Nat) :
    Option (List (String × Nat) × List (String × Nat)) :=
  let fenBefore := fens.getD i ""
  let isWhite := fenSideIsWhite fenBefore
  let played := movesUci.getD i ""
  let impactV := impact (evals.getD i 0) (evals.getD (i + 1) 0) isWhite
  let ebest := engineBestUci (engine fenBefore)
  let cls := summaryCls impactV ebest played
  if isWhite then (incrCount cw_cb.1 cls).map (fun cw2 => (cw2, cw_cb.2))
  else (incrCount cw_cb.2 cls).map (fun cb2 => (cw_cb.1, cb2))

/-- Core of the `analyze_game` handler (lines 216-254) for a found game,
parametrized by the engine oracle keyed on FEN (the handler rebuilds each
board from its FEN before analysing it).  `none` models a `KeyError`
escaping the tally loop. -/
def analyze_game (engine : String → EngineInfo) (fens movesUci : List String) :
    Option (List (String × Nat) × List (String × Nat)) :=
  let evals := fens.map (fun f => eval_from_info (engine f))
  (List.range (fens.length - 1)).foldl
    (fun acc i => acc.bind (fun cw_cb => analyzeStep engine fens movesUci evals cw_cb i))
    (some (initCounts, initCounts))

/-- Fields of the `explain_alternate` response that the claims refer to. -/
structure AlternateResult where
  ply : Nat
  bestMoveUci : Option String
  bullets : List String
deriving DecidableEq, Repr

/-- Handler `explain_alternate` (lines 1130-1280) for a found game and a
valid ply.  `from_uci` of the stored played move and of the engine's own uci
cannot fail for imported games; the `none` fallbacks mark where the source
would raise. -/
def explain_alternate (svc : Chess) (fens movesUci : List String) (ply depth : Nat) :
    AlternateResult :=
  let fenBefore := fens.getD (ply - 1) ""
  let playedUci := movesUci.getD (ply - 1) ""
  let boardBefore := svc.boardOfFen fenBefore
  let moverColor := boardBefore.turn
  let best0 := (svc.analyse boardBefore depth).pv.head?
  match best0.map Move.uci with
  | none => ⟨ply, none, ["Engine best move not available."]⟩
  | some bestUci =>
    if bestUci = "" then ⟨ply, none, ["Engine best move not available."]⟩
    else
      let boardAfterPlayed :=
        match moveFromUci playedUci with
        | some m =>
          if boardBefore.legalMoves.contains m then svc.push boardBefore m else boardBefore
        | none => boardBefore
      let mvBest? := moveFromUci bestUci
      let boardAfterBest :=
        match mvBest? with
        | some m =>
          if boardBefore.legalMoves.contains m then svc.push boardBefore m else boardBefore
        | none => boardBefore
      let playedPvUci := _pv_uci_from svc boardAfterPlayed depth 8
      let bestPvUci := _pv_uci_from svc boardAfterBest depth 8
      let moverIsWhite := boardBefore.turn
      let opensPlayed :=
        detect_opens_king svc boardBefore boardAfterPlayed playedUci moverIsWhite (-3/10) playedPvUci
      let opensBest :=
        detect_opens_king svc boardBefore boardAfterBest bestUci moverIsWhite 0 bestPvUci
      let bulletsOpen :=
        if opensPlayed && !opensBest then
          match _uci_sq playedUci with
          | some fr_to =>
            ["Your move " ++ fr_to.1 ++ "–" ++ fr_to.2 ++
               " loosens the pawn shield around your king.",
             "The engine line keeps the king safer by not pushing that pawn."]
          | none =>
            ["Your move weakens your king’s pawn shield; the engine line keeps the king safer."]
        else []
      let hung := _top_hanging_piece_details boardAfterPlayed moverColor
      let bulletsHang :=
        match hung with
        | none => []
        | some h =>
          let fixed := !(_is_hanging boardAfterBest moverColor h.hungSquare)
          let movedPieceName :=
            match mvBest? with
            | some mb =>
              match boardBefore.pieceAt mb.fromSq with
              | some p => PIECE_NAME p.ptype
              | none => "piece"
            | none => "piece"
          let s1 := "Your " ++ h.hungPieceName ++ " on " ++ h.hungSquareName ++
            (if fixed then " was hanging: attacked by the opponent’s "
             else " is hanging: attacked by the opponent’s ") ++
            h.attackerPieceName ++ " from " ++ h.attackerSquareName
          let s2 := "(" ++ toString h.attackers ++ " attacker" ++
            (if h.attackers ≠ 1 then "s" else "") ++ " vs " ++ toString h.defenders ++
            " defender" ++ (if h.defenders ≠ 1 then "s" else "") ++ ")."
          if fixed then
            [s1, s2,
             "The best move defends " ++ h.hungSquareName ++ " with your " ++ movedPieceName ++ "."]
          else [s1, s2]
      let owPlayed := _overworked_defender_details boardAfterPlayed moverColor
      let owBest := _overworked_defender_details boardAfterBest moverColor
      let bulletsOw :=
        if owPlayed.isSome && !owBest.isSome then
          match owPlayed with
          | some ow =>
            match ow.targets with
            | t1 :: t2 :: _ =>
              ["Relieves an overworked " ++ ow.defenderPieceName ++ " on " ++ ow.defenderSquare,
               "The piece was defending your " ++ t1.pieceName ++ " on " ++ t1.square ++
                 " and your " ++ t2.pieceName ++ " on " ++ t2.square ++ "."]
            | _ => []
          | none => []
        else []
      let lostPlayed := detect_lost_tempo svc fens movesUci ply boardBefore (-3/10) (some bestUci)
      let lostBest := detect_lost_tempo svc fens movesUci ply boardBefore 0 (some bestUci)
      let bulletsLost :=
        if lostPlayed && !lostBest then
          match moveFromUci bestUci with
          | none => []
          | some mv =>
            let pieceName :=
              match boardBefore.pieceAt mv.fromSq with
              | some p => PIECE_NAME p.ptype
              | none => "piece"
            let sqn := squareName mv.toSq
            let followSq :=
              if 3 ≤ bestPvUci.length then
                (moveFromUci (bestPvUci.getD 1 "")).map (fun m2 => squareName m2.toSq)
              else none
            if ply ≤ 20 then
              ["Improves the activity of your " ++ pieceName ++ " by moving it to " ++ sqn ++ "."] ++
                (match followSq with
                 | some fs =>
                   ["This prepares further improvement, such as a follow-up move to " ++ fs ++ "."]
                 | none => ["This improves piece coordination without losing tempo."])
            else
              ["Develops your " ++ pieceName ++ " by placing it on " ++ sqn ++ "."] ++
                (match followSq with
                 | some fs =>
                   ["This allows you to continue development next, for example by playing to " ++
                      fs ++ "."]
                 | none => ["This keeps your development on track without wasting time."])
        else []
      ⟨ply, some bestUci, bulletsOpen ++ bulletsHang ++ bulletsOw ++ bulletsLost⟩

/-! Concrete pieces shared by the evaluation scenarios below. -/

def wP : Piece := ⟨true, 1⟩
def wN : Piece := ⟨true, 2⟩
def wB : Piece := ⟨true, 3⟩
def wQ : Piece := ⟨true, 5⟩
def wK : Piece := ⟨true, 6⟩
def bP : Piece := ⟨false, 1⟩
def bN : Piece := ⟨false, 2⟩
def bK : Piece := ⟨false, 6⟩

/-! Scenario for the explanation-composer conflict rule: White shuffles the
knight g1-f3-g1 while the white bishop on b5 hangs to the a6 pawn. -/

def mvE2E4 : Move := ⟨12, 28, none⟩

/-- Start position of the conflict scenario (before ply 1). -/
def b3Start : Board where
  turn := true
  pieceMap := [(6, wN), (33, wB), (4, wK), (48, bP), (60, bK)]
  attackers := fun _ _ => []
  isCheck := false
  isCapture := fun _ => false
  givesCheck := fun _ => false
  legalMoves := []

/-- Position before ply 3: White to move, knight on f3, bishop on b5 not
yet attacked. -/
def b3Before : Board where
  turn := true
  pieceMap := [(21, wN), (33, wB), (4, wK), (40, bP), (60, bK)]
  attackers := fun _ _ => []
  isCheck := false
  isCapture := fun _ => false
  givesCheck := fun _ => false
  legalMoves := []

/-- Position after ply 3 (knight back on g1): the bishop on b5 is attacked
once by the a6 pawn and undefended. -/
def b3After : Board where
  turn := false
  pieceMap := [(6, wN), (33, wB), (4, wK), (40, bP), (60, bK)]
  attackers := fun c sq => if c = false ∧ sq = 33 then [40] else []
  isCheck := false
  isCapture := fun _ => false
  givesCheck := fun _ => false
  legalMoves := []

/-- Service for the conflict scenario: the engine prefers e2e4 from the
pre-move position (score 0.00) and evaluates the post-move position at
-0.30, so the impact of the shuffle is -0.30. -/
def svc3 : Chess where
  push := fun b _ => b
  boardOfFen := fun f =>
    if f = "f0 w" then b3Start
    else if f = "f2 w" then b3Before
    else if f = "f3 b" then b3After
    else b3Start
  san := fun _ m => Move.uci m
  analyse := fun b _ =>
    if b.turn then ⟨some (.cp 0), [mvE2E4]⟩ else ⟨some (.cp (-30)), []⟩

def fens3 : List String := ["f0 w", "f1 b", "f2 w", "f3 b"]
def moves3 : List String := ["g1f3", "a7a6", "f3g1"]

/-! Scenario for the brilliancy threshold: a synthetic input pair whose
mover material delta is exactly -1. -/

def mvF3E4 : Move := ⟨21, 28, none⟩
def mvD6xE4 : Move := ⟨43, 28, none⟩

/-- Input position: White to move, knight f3, pawn e2, black knight d6. -/
def b5Before : Board where
  turn := true
  pieceMap := [(4, wK), (21, wN), (12, wP), (60, bK), (43, bN)]
  attackers := fun _ _ => []
  isCheck := false
  isCapture := fun _ => false
  givesCheck := fun _ => false
  legalMoves := [mvF3E4]

/-- Supplied after-position: knight on e4 attacked by the d6 knight, the
white pawn gone, so White is down exactly one point. -/
def b5After : Board where
  turn := false
  pieceMap := [(4, wK), (28, wN), (60, bK), (43, bN)]
  attackers := fun c sq => if c = false ∧ sq = 28 then [43] else []
  isCheck := false
  isCapture := fun _ => false
  givesCheck := fun _ => false
  legalMoves := [mvD6xE4]

/-- Position after the opponent's best reply captures the e4 knight. -/
def b5Reply : Board where
  turn := true
  pieceMap := [(4, wK), (60, bK), (28, bN)]
  attackers := fun _ _ => []
  isCheck := false
  isCapture := fun _ => false
  givesCheck := fun _ => false
  legalMoves := []

/-- Service for the brilliancy scenario: no PV from the start position (so
the near-best gate degrades to the uci comparison with an absent best), the
capture d6xe4 as best reply, and a +1.00 evaluation after the reply. -/
def svc5 : Chess where
  push := fun b _ => if b.turn then b5After else b5Reply
  boardOfFen := fun _ => b5Before
  san := fun _ m => Move.uci m
  analyse := fun b _ =>
    if b.pieceMap.length = 5 then ⟨some (.cp 0), []⟩
    else if b.turn = false then ⟨some (.cp 0), [mvD6xE4]⟩
    else ⟨some (.cp 100), []⟩

/-! Scenario for the differential endpoint: the played move equals the
engine's top choice d1h5, and the queen hangs on h5 to the f6 knight in the
shared after-position. -/

def mvD1H5 : Move := ⟨3, 39, none⟩

def b4Before : Board where
  turn := true
  pieceMap := [(3, wQ), (4, wK), (45, bN), (60, bK)]
  attackers := fun _ _ => []
  isCheck := false
  isCapture := fun _ => false
  givesCheck := fun _ => false
  legalMoves := [mvD1H5]

def b4After : Board where
  turn := false
  pieceMap := [(39, wQ), (4, wK), (45, bN), (60, bK)]
  attackers := fun c sq => if c = false ∧ sq = 39 then [45] else []
  isCheck := false
  isCapture := fun _ => false
  givesCheck := fun _ => false
  legalMoves := []

def svc4 : Chess where
  push := fun _ _ => b4After
  boardOfFen := fun _ => b4Before
  san := fun _ m => Move.uci m
  analyse := fun b _ =>
    if b.turn then ⟨some (.cp 0), [mvD1H5]⟩ else ⟨some (.cp 0), []⟩

/-! Quiet variant of the differential scenario for the amended statement:
played equals best, nothing is attacked, no pawn-shield push. -/

def b4wBefore : Board where
  turn := true
  pieceMap := [(3, wQ), (4, wK), (60, bK)]
  attackers := fun _ _ => []
  isCheck := false
  isCapture := fun _ => false
  givesCheck := fun _ => false
  legalMoves := [mvD1H5]

def b4wAfter : Board where
  turn := false
  pieceMap := [(39, wQ), (4, wK), (60, bK)]
  attackers := fun _ _ => []
  isCheck := false
  isCapture := fun _ => false
  givesCheck := fun _ => false
  legalMoves := []

def svc4w : Chess where
  push := fun _ _ => b4wAfter
  boardOfFen := fun _ => b4wBefore
  san := fun _ m => Move.uci m
  analyse := fun b _ =>
    if b.turn then ⟨some (.cp 0), [mvD1H5]⟩ else ⟨some (.cp 0), []⟩

/-! Trivial board and service for the best-override evaluation scenario. -/

def bW2 : Board where
  turn := true
  pieceMap := []
  attackers := fun _ _ => []
  isCheck := false
  isCapture := fun _ => false
  givesCheck := fun _ => false
  legalMoves := []

def svcW2 : Chess where
  push := fun b _ => b
  boardOfFen := fun _ => bW2
  san := fun _ m => Move.uci m
  analyse := fun _ _ => ⟨some (.cp 0), [mvE2E4]⟩

/-- Per-entry contribution of `_material_white_minus_black`. -/
def colorContribution (e : Nat × Piece) : Int :=
  if e.2.color then PIECE_VALUE e.2.ptype else -PIECE_VALUE e.2.ptype

/-- Per-type tally term of `_material_score` over a raw piece list. -/
def typeTally (pm : List (Nat × Piece)) (t : Nat) (v : Int) : Int :=
  (pm.countP (fun e => e.2.ptype == t && e.2.color == true) : Int) * v -
    (pm.countP (fun e => e.2.ptype == t && e.2.color == false) : Int) * v

/-! Helper lemmas. -/

/-- A UCI string always has at least four characters, so it is never empty
(python's truthiness tests on `best_move` therefore succeed whenever a PV
move exists). -/
theorem uci_ne_nil (m : Move) : Move.uci m ≠ "" := by
  intro h
  have hd : (Move.uci m).data = [] := by rw [h]
  simp [Move.uci, squareName] at hd

/-- Condition (2) of the brilliancy detector gates everything after it: if
the mover's material delta between the supplied before/after boards exceeds
`-1`, the detector cannot fire, whatever the engine oracle answers. -/
theorem perfect_needs_sacrifice (svc : Chess) (bB bA : Board) (played : String)
    (depth : Nat) (hmat : -1 < _mover_material_delta bB bA bB.turn) :
    (is_perfect_brilliancy svc bB bA played depth).1 = false := by
  simp only [is_perfect_brilliancy]
  repeat' split
  all_goals rfl

unseal Rat.inv Rat.mul Rat.sub Rat.add in
/-- C1: the impact-to-band stage, as the claim states it, fails at `0.0`:
`classify_impact` has no `okay` band and returns `good` there (and likewise
at `2.0` and `3.0`, where the claim expects `best` and `perfect`). -/
theorem classify_impact_zero_not_okay :
    classify_impact 0 = "good" ∧ "good" ≠ "okay" ∧
      classify_impact 2 = "good" ∧ classify_impact 3 = "good" := by
  decide

/-- C1 (amended): `classify_impact` returns `blunder` for impact at most
`-2.0`, `bad` for impact in `(-2.0, -0.75]`, and `good` otherwise; there are
no `okay`, `best` or `perfect` bands. -/
theorem classify_impact_bands (x : ℚ) :
    (x ≤ -2 → classify_impact x = "blunder") ∧
    (-2 < x → x ≤ -3/4 → classify_impact x = "bad") ∧
    (-3/4 < x → classify_impact x = "good") := by
  unfold classify_impact
  refine ⟨fun h => ?_, fun h1 h2 => ?_, fun h => ?_⟩ <;>
    split_ifs <;> first | rfl | linarith

/-- Witness for the amended impact bands at `-2.0`, `-1.0` and `3.0`. -/
theorem classify_impact_bands_witness :
    classify_impact (-2) = "blunder" ∧ classify_impact (-1) = "bad" ∧
      classify_impact 3 = "good" :=
  ⟨(classify_impact_bands (-2)).1 (by norm_num),
   (classify_impact_bands (-1)).2.1 (by norm_num) (by norm_num),
   (classify_impact_bands 3).2.2 (by norm_num)⟩

/-- C8: the impact computation is antisymmetric in the mover side, equal to
`after - before` for the reference side (White) and to `before - after`
otherwise. -/
theorem impact_antisymmetric (evalBefore evalAfter : ℚ) :
    impact evalBefore evalAfter true = -(impact evalBefore evalAfter false) ∧
    impact evalBefore evalAfter true = evalAfter - evalBefore ∧
    impact evalBefore evalAfter false = evalBefore - evalAfter := by
  refine ⟨?_, rfl, rfl⟩
  show evalAfter - evalBefore = -(evalBefore - evalAfter)
  ring

unseal Rat.inv Rat.mul Rat.sub Rat.add in
/-- C3: at the knight-shuffle input with the hanging b5 bishop, the
hanging-piece detector fires, yet the returned debug reasons hold both
`HANGING_PIECE` and `LOST_TEMPO` and the bullets hold the lost-tempo line:
the suppression `debug_reasons.remove("LOST_TEMPO")` runs before
`LOST_TEMPO` is ever appended, so it is dead code and the conflict rule the
spec states never executes. -/
theorem hanging_does_not_suppress_lost_tempo :
    (explain_move svc3 fens3 moves3 3 14).debugReasons = ["HANGING_PIECE", "LOST_TEMPO"] ∧
    "Loses tempo: the same piece was moved again without a tactical gain or necessity." ∈
      (explain_move svc3 fens3 moves3 3 14).bullets ∧
    (_hanging_piece_bullet b3After true 14).isSome = true := by
  decide

unseal Rat.inv Rat.mul Rat.sub Rat.add in
/-- C5: the brilliancy detector fires on an input whose mover material loss
is exactly one point — the code tests `mat_delta > -1` although its own
docstring demands a sacrifice of at least two points. -/
theorem brilliancy_fires_at_one_point_loss :
    _mover_material_delta b5Before b5After true = -1 ∧
    (is_perfect_brilliancy svc5 b5Before b5After "f3e4" 14).1 = true := by
  decide

/-- C7: the explanation cache is read but never written: the handler leaves
the cache unchanged on every request, so after a first request on an empty
cache the second identical request recomputes (returning the newly computed
`9`, not a stored `7`). -/
theorem explain_cache_never_stores :
    (∀ (cache : List ((Nat × Nat × Nat) × Nat)) (gameId ply depth : Nat)
        (compute : Unit → Nat),
      (explainMoveCached cache gameId ply depth compute).2 = cache) ∧
    (explainMoveCached (explainMoveCached ([] : List ((Nat × Nat × Nat) × Nat)) 1 1 14
        (fun _ => 7)).2 1 1 14 (fun _ => 9)).1 = 9 := by
  constructor
  · intro cache gameId ply depth compute
    simp only [explainMoveCached]
    split <;> rfl
  · rfl

/-- C2: in both endpoints, a played move equal to the engine's top choice
from the pre-move position at the same depth forces the label `best`,
whatever the impact band said.  For the single-move endpoint the hypothesis
`hmat` records the Game Record invariant: the stored after-position arises
from the played move, and a mover's own move never loses the mover material,
so the brilliancy override (which demands a material loss) cannot rewrite
the label to `perfect`. -/
theorem best_move_forced_best :
    (∀ (svc : Chess) (fens movesUci : List String) (ply depth : Nat) (m : Move)
        (rest : List Move),
      (svc.analyse (svc.boardOfFen (fens.getD (ply - 1) "")) depth).pv = m :: rest →
      Move.uci m = movesUci.getD (ply - 1) "" →
      -1 < _mover_material_delta (svc.boardOfFen (fens.getD (ply - 1) ""))
          (svc.boardOfFen (fens.getD ply ""))
          (svc.boardOfFen (fens.getD (ply - 1) "")).turn →
      (explain_move svc fens movesUci ply depth).quality = "best") ∧
    (∀ (impactV : ℚ) (b played : String), b ≠ "" → played = b →
      summaryCls impactV (some b) played = "best") := by
  constructor
  · intro svc fens movesUci ply depth m rest hpv hplayed hmat
    have hperf := perfect_needs_sacrifice svc (svc.boardOfFen (fens.getD (ply - 1) ""))
      (svc.boardOfFen (fens.getD ply "")) (Move.uci m) depth hmat
    simp only [explain_move, hpv]
    rw [← hplayed]
    simp [uci_ne_nil m]
    simpa using hperf
  · intro impactV b played hb hp
    simp [summaryCls, hb, hp]

/-- Witness for the forced `best` label: a trivial game where the played
move e2e4 equals the engine's top choice and the material delta is zero. -/
theorem best_move_forced_best_witness :
    (explain_move svcW2 ["s w", "t b"] ["e2e4"] 1 14).quality = "best" ∧
    summaryCls 0 (some "e2e4") "e2e4" = "best" :=
  ⟨best_move_forced_best.1 svcW2 ["s w", "t b"] ["e2e4"] 1 14 mvE2E4 [] rfl rfl
      (by decide),
   best_move_forced_best.2 0 "e2e4" "e2e4" (by decide) rfl⟩

/-- The lost-tempo detector never fires when the played move equals a truthy
engine best move (its `played == best_move_uci` guard returns `False`). -/
theorem lost_tempo_blocked_by_best (svc : Chess) (fens movesUci : List String)
    (ply : Nat) (bB : Board) (iv : ℚ) (b : String) (hb : b ≠ "")
    (hp : movesUci.getD (ply - 1) "" = b) :
    detect_lost_tempo svc fens movesUci ply bB iv (some b) = false := by
  simp only [detect_lost_tempo]
  repeat' split
  all_goals first
  | rfl
  | (exfalso; simp_all)

/-- The opens-king detector never fires when the played move parses to a
move that is not a pawn-shield push. -/
theorem opens_king_needs_shield_push (svc : Chess) (bB bA : Board) (u : String)
    (w : Bool) (iv : ℚ) (pvU : List String)
    (h : ∀ mv, moveFromUci u = some mv → _is_pawn_shield_push bB mv = false) :
    detect_opens_king svc bB bA u w iv pvU = false := by
  simp only [detect_opens_king]
  repeat' split
  all_goals first
  | rfl
  | (exfalso; simp_all)

/-- C4: the differential endpoint is not empty when played and best moves
are identical: at the d1h5 input, the engine's top move equals the played
move, yet the bullet list is nonempty, because the hanging-piece report is
not differential — it fires on the shared after-position even though the
best branch leaves the queen equally hanging. -/
theorem explain_alternate_identical_nonempty :
    (explain_alternate svc4 ["g0 w", "g1 b"] ["d1h5"] 1 14).bestMoveUci =
      some (["d1h5"].getD 0 "") ∧
    (explain_alternate svc4 ["g0 w", "g1 b"] ["d1h5"] 1 14).bullets ≠ [] := by
  decide

/-- C4 (amended): when played and best moves are identical, the lost-tempo
and overworked-defender differential bullets are always absent, and the
bullet list is empty provided additionally that no mover piece hangs in the
shared after-position and the move is not a pawn-shield push; without those
extra conditions the list can be nonempty (the hanging-piece report is not
differential, and the king-safety detector receives distinct hardcoded
impacts `-0.3` and `0.0` for the two branches). -/
theorem explain_alternate_identical_no_differential_bullets
    (svc : Chess) (fens movesUci : List String) (ply depth : Nat) (m : Move)
    (rest : List Move)
    (hpv : (svc.analyse (svc.boardOfFen (fens.getD (ply - 1) "")) depth).pv = m :: rest)
    (hparse : moveFromUci (movesUci.getD (ply - 1) "") = some m)
    (hplayed : Move.uci m = movesUci.getD (ply - 1) "")
    (hshield : _is_pawn_shield_push (svc.boardOfFen (fens.getD (ply - 1) "")) m = false)
    (hhang : _top_hanging_piece_details
        (if (svc.boardOfFen (fens.getD (ply - 1) "")).legalMoves.contains m
         then svc.push (svc.boardOfFen (fens.getD (ply - 1) "")) m
         else svc.boardOfFen (fens.getD (ply - 1) ""))
        (svc.boardOfFen (fens.getD (ply - 1) "")).turn = none) :
    (explain_alternate svc fens movesUci ply depth).bullets = [] := by
  rw [← hplayed] at hparse
  have hopen : ∀ (bA : Board) (iv : ℚ) (pvU : List String),
      detect_opens_king svc (svc.boardOfFen (fens.getD (ply - 1) "")) bA
        (Move.uci m) (svc.boardOfFen (fens.getD (ply - 1) "")).turn iv pvU = false := by
    intro bA iv pvU
    refine opens_king_needs_shield_push svc _ bA _ _ iv pvU ?_
    intro mv hmv
    rw [hparse] at hmv
    cases hmv
    exact hshield
  have hlost : ∀ iv : ℚ,
      detect_lost_tempo svc fens movesUci ply (svc.boardOfFen (fens.getD (ply - 1) ""))
        iv (some (Move.uci m)) = false := fun iv =>
    lost_tempo_blocked_by_best svc fens movesUci ply _ iv (Move.uci m)
      (uci_ne_nil m) hplayed.symm
  simp only [explain_alternate, hpv, List.head?_cons, Option.map_some']
  rw [← hplayed]
  rw [if_neg (uci_ne_nil m)]
  rw [hparse]
  simp only [hhang, hopen, hlost, Bool.false_and, Bool.and_not_self]
  simp

/-- Witness for the amended differential statement: played equals best,
nothing hangs afterwards, no shield pawn moves, and the bullets are empty. -/
theorem explain_alternate_identical_no_differential_bullets_witness :
    (explain_alternate svc4w ["h0 w", "h1 b"] ["d1h5"] 1 14).bullets = [] :=
  explain_alternate_identical_no_differential_bullets svc4w ["h0 w", "h1 b"] ["d1h5"]
    1 14 mvD1H5 [] rfl (by decide) (by decide) (by decide) (by decide)

/-- Every band label is one of the three strings the band stage can emit. -/
theorem classify_impact_mem (x : ℚ) :
    classify_impact x ∈ (["blunder", "bad", "good"] : List String) := by
  unfold classify_impact
  split_ifs <;> simp

/-- Every summary-mode label is one of four strings. -/
theorem summaryCls_mem (impactV : ℚ) (ebest : Option String) (played : String) :
    summaryCls impactV ebest played ∈ (["blunder", "bad", "good", "best"] : List String) := by
  have h := classify_impact_mem impactV
  simp only [List.mem_cons, List.not_mem_nil, or_false] at h ⊢
  rcases ebest with _ | b <;> simp only [summaryCls] <;>
    first
    | tauto
    | (split_ifs <;> tauto)

/-- Every summary-mode label is a key of the tally dictionaries. -/
theorem summaryCls_mem_keys (impactV : ℚ) (ebest : Option String) (played : String) :
    summaryCls impactV ebest played ∈ initCounts.map Prod.fst := by
  have h := summaryCls_mem impactV ebest played
  simp only [List.mem_cons, List.not_mem_nil, or_false] at h
  simp only [initCounts, List.map_cons, List.map_nil, List.mem_cons, List.not_mem_nil,
    or_false]
  tauto

/-- The dictionary increment succeeds exactly on present keys. -/
theorem incrCount_isSome (cs : List (String × Nat)) (k : String)
    (h : k ∈ cs.map Prod.fst) : (incrCount cs k).isSome = true := by
  induction cs with
  | nil => simp at h
  | cons e rest ih =>
    obtain ⟨k1, v⟩ := e
    simp only [incrCount]
    split
    · rfl
    · rename_i hne
      simp only [List.map_cons, List.mem_cons] at h
      rcases h with h | h
      · exact absurd h.symm hne
      · simpa using ih h

/-- The dictionary increment preserves the key list. -/
theorem incrCount_keys (cs : List (String × Nat)) (k : String)
    (cs' : List (String × Nat)) (h : incrCount cs k = some cs') :
    cs'.map Prod.fst = cs.map Prod.fst := by
  induction cs generalizing cs' with
  | nil => simp [incrCount] at h
  | cons e rest ih =>
    obtain ⟨k1, v⟩ := e
    simp only [incrCount] at h
    split at h
    · cases h
      simp
    · rcases ho : incrCount rest k with _ | r
      · rw [ho] at h
        simp at h
      · rw [ho] at h
        simp only [Option.map_some', Option.some.injEq] at h
        subst h
        simp [ih r ho]

/-- The dictionary increment raises the total by exactly one. -/
theorem incrCount_sum (cs : List (String × Nat)) (k : String)
    (cs' : List (String × Nat)) (h : incrCount cs k = some cs') :
    countsSum cs' = countsSum cs + 1 := by
  induction cs generalizing cs' with
  | nil => simp [incrCount] at h
  | cons e rest ih =>
    obtain ⟨k1, v⟩ := e
    simp only [incrCount] at h
    split at h
    · cases h
      simp [countsSum]
      omega
    · rcases ho : incrCount rest k with _ | r
      · rw [ho] at h
        simp at h
      · rw [ho] at h
        simp only [Option.map_some', Option.some.injEq] at h
        subst h
        have hs := ih r ho
        simp [countsSum] at hs ⊢
        omega

unseal Rat.inv Rat.mul Rat.sub Rat.add in
/-- C6: the per-side tallies of the summary endpoint have five buckets, not
six — there is no `okay` bucket — shown on a concrete two-move game. -/
theorem analyze_game_five_buckets :
    (analyze_game (fun _ => ⟨none, []⟩) ["u w", "v b", "w w"] ["d2d4", "d7d5"]).map
        (fun p => p.1.map Prod.fst) = some ["perfect", "best", "good", "bad", "blunder"] ∧
    (analyze_game (fun _ => ⟨none, []⟩) ["u w", "v b", "w w"] ["d2d4", "d7d5"]).map
        (fun p => (p.1.map Prod.fst).contains "okay") = some false := by
  decide

/-- C6 (amended): for every game of exactly one White and one Black move
(the sides read from the first two stored FENs), the summary returns
per-side tallies over the five buckets perfect, best, good, bad, blunder
whose White counts sum to exactly 1 and whose Black counts sum to
exactly 1. -/
theorem analyze_game_two_move_sums (engine : String → EngineInfo)
    (f0 f1 f2 m0 m1 : String) (h0 : fenSideIsWhite f0 = true)
    (h1 : fenSideIsWhite f1 = false) :
    ∃ cw cb, analyze_game engine [f0, f1, f2] [m0, m1] = some (cw, cb) ∧
      cw.map Prod.fst = initCounts.map Prod.fst ∧
      cb.map Prod.fst = initCounts.map Prod.fst ∧
      countsSum cw = 1 ∧ countsSum cb = 1 := by
  simp only [analyze_game, analyzeStep, List.length_cons, List.length_nil, List.map_cons,
    List.map_nil]
  have hr : List.range (2 + 1 - 1) = [0, 1] := rfl
  rw [hr]
  simp only [List.foldl_cons, List.foldl_nil, Option.some_bind, List.getD_cons_zero,
    List.getD_cons_succ, h0, h1]
  simp only [if_true, Bool.false_eq_true, if_false]
  obtain ⟨cw1, hcw1⟩ := Option.isSome_iff_exists.mp
    (incrCount_isSome initCounts
      (summaryCls (impact (eval_from_info (engine f0)) (eval_from_info (engine f1)) true)
        (engineBestUci (engine f0)) m0)
      (summaryCls_mem_keys _ _ _))
  obtain ⟨cb1, hcb1⟩ := Option.isSome_iff_exists.mp
    (incrCount_isSome initCounts
      (summaryCls (impact (eval_from_info (engine f1)) (eval_from_info (engine f2)) false)
        (engineBestUci (engine f1)) m1)
      (summaryCls_mem_keys _ _ _))
  rw [hcw1]
  simp only [Option.map_some', Option.some_bind]
  rw [hcb1]
  simp only [Option.map_some']
  refine ⟨cw1, cb1, rfl, ?_, ?_, ?_, ?_⟩
  · exact incrCount_keys _ _ _ hcw1
  · exact incrCount_keys _ _ _ hcb1
  · rw [incrCount_sum _ _ _ hcw1]
    decide
  · rw [incrCount_sum _ _ _ hcb1]
    decide

/-- Witness for the amended two-move tally sums on a concrete game. -/
theorem analyze_game_two_move_sums_witness :
    (analyze_game (fun _ => EngineInfo.mk none []) ["x w", "y b", "z w"]
        ["e2e4", "e7e5"]).map (fun p => (countsSum p.1, countsSum p.2)) = some (1, 1) := by
  obtain ⟨cw, cb, h, _, _, hw, hb⟩ := analyze_game_two_move_sums
    (fun _ => EngineInfo.mk none []) "x w" "y b" "z w" "e2e4" "e7e5" (by decide) (by decide)
  rw [h]
  simp [hw, hb]

/-- An option-threaded fold stays `some` whenever its step preserves an
invariant. -/
theorem foldl_bind_some {σ : Type} (g : σ → Nat → Option σ) (P : σ → Prop)
    (hg : ∀ s i, P s → ∃ s', g s i = some s' ∧ P s') :
    ∀ (l : List Nat) (s : σ), P s →
      ∃ s', l.foldl (fun acc i => acc.bind (fun x => g x i)) (some s) = some s' ∧ P s' := by
  intro l
  induction l with
  | nil => exact fun s hs => ⟨s, rfl, hs⟩
  | cons i t ih =>
    intro s hs
    obtain ⟨s1, hg1, hP1⟩ := hg s i hs
    simpa [List.foldl_cons, Option.some_bind, hg1] using ih s1 hP1

/-- Each tally-loop step succeeds and preserves the key lists of both
per-side dictionaries. -/
theorem analyzeStep_preserves (engine : String → EngineInfo)
    (fens movesUci : List String) (evals : List ℚ)
    (s : List (String × Nat) × List (String × Nat)) (i : Nat)
    (hP : s.1.map Prod.fst = initCounts.map Prod.fst ∧
      s.2.map Prod.fst = initCounts.map Prod.fst) :
    ∃ s', analyzeStep engine fens movesUci evals s i = some s' ∧
      s'.1.map Prod.fst = initCounts.map Prod.fst ∧
      s'.2.map Prod.fst = initCounts.map Prod.fst := by
  obtain ⟨h1, h2⟩ := hP
  simp only [analyzeStep]
  split
  · have hmem : summaryCls
        (impact (evals.getD i 0) (evals.getD (i + 1) 0) (fenSideIsWhite (fens.getD i "")))
        (engineBestUci (engine (fens.getD i ""))) (movesUci.getD i "") ∈
          s.1.map Prod.fst := by
      rw [h1]
      exact summaryCls_mem_keys _ _ _
    obtain ⟨cw2, hcw2⟩ := Option.isSome_iff_exists.mp (incrCount_isSome _ _ hmem)
    refine ⟨(cw2, s.2), ?_, ?_, h2⟩
    · rw [hcw2]
      rfl
    · rw [incrCount_keys _ _ _ hcw2]
      exact h1
  · have hmem : summaryCls
        (impact (evals.getD i 0) (evals.getD (i + 1) 0) (fenSideIsWhite (fens.getD i "")))
        (engineBestUci (engine (fens.getD i ""))) (movesUci.getD i "") ∈
          s.2.map Prod.fst := by
      rw [h2]
      exact summaryCls_mem_keys _ _ _
    obtain ⟨cb2, hcb2⟩ := Option.isSome_iff_exists.mp (incrCount_isSome _ _ hmem)
    refine ⟨(s.1, cb2), ?_, h1, ?_⟩
    · rw [hcb2]
      rfl
    · rw [incrCount_keys _ _ _ hcb2]
      exact h2

/-- C10: the label of every summary ply is one of blunder, bad, good, best,
a subset of the tally keys perfect, best, good, bad, blunder, so the
increment `counts[label] += 1` is total and `analyze_game` always returns
tallies (no `KeyError`). -/
theorem summary_label_total :
    (∀ (impactV : ℚ) (ebest : Option String) (played : String),
      summaryCls impactV ebest played ∈ (["blunder", "bad", "good", "best"] : List String)) ∧
    (∀ (engine : String → EngineInfo) (fens movesUci : List String),
      (analyze_game engine fens movesUci).isSome = true) := by
  refine ⟨summaryCls_mem, ?_⟩
  intro engine fens movesUci
  obtain ⟨s', hs', _⟩ := foldl_bind_some
    (analyzeStep engine fens movesUci (fens.map (fun f => eval_from_info (engine f))))
    (fun s => s.1.map Prod.fst = initCounts.map Prod.fst ∧
      s.2.map Prod.fst = initCounts.map Prod.fst)
    (fun s i hP => analyzeStep_preserves engine fens movesUci _ s i hP)
    (List.range (fens.length - 1)) (initCounts, initCounts) ⟨rfl, rfl⟩
  simp only [analyze_game]
  rw [hs']
  rfl

/-- Folding an addition equals adding the mapped sum. -/
theorem foldl_add_eq_sum (g : Nat × Piece → Int) (l : List (Nat × Piece)) :
    ∀ s : Int, l.foldl (fun a e => a + g e) s = s + (l.map g).sum := by
  induction l with
  | nil =>
    intro s
    simp
  | cons x xs ih =>
    intro s
    simp [List.foldl_cons, ih, add_assoc]

/-- The summed per-entry contributions equal the five per-type tallies. -/
theorem sum_contrib_eq_tallies (pm : List (Nat × Piece)) :
    (pm.map colorContribution).sum =
      typeTally pm 1 1 + typeTally pm 2 3 + typeTally pm 3 3 +
        typeTally pm 4 5 + typeTally pm 5 9 := by
  induction pm with
  | nil => simp [typeTally]
  | cons e rest ih =>
    obtain ⟨sq, c, t⟩ := e
    simp only [List.map_cons, List.sum_cons, ih, typeTally, List.countP_cons]
    push_cast
    by_cases h1 : t = 1
    · subst h1
      cases c <;> simp [colorContribution, PIECE_VALUE] <;> ring
    · by_cases h2 : t = 2
      · subst h2
        cases c <;> simp [colorContribution, PIECE_VALUE] <;> ring
      · by_cases h3 : t = 3
        · subst h3
          cases c <;> simp [colorContribution, PIECE_VALUE] <;> ring
        · by_cases h4 : t = 4
          · subst h4
            cases c <;> simp [colorContribution, PIECE_VALUE] <;> ring
          · by_cases h5 : t = 5
            · subst h5
              cases c <;> simp [colorContribution, PIECE_VALUE] <;> ring
            · cases c <;>
                simp [colorContribution, PIECE_VALUE, h1, h2, h3, h4, h5]

/-- The typed material count rewrites to the five per-type tallies. -/
theorem material_score_as_tallies (b : Board) :
    _material_score b = typeTally b.pieceMap 1 1 + typeTally b.pieceMap 2 3 +
      typeTally b.pieceMap 3 3 + typeTally b.pieceMap 4 5 + typeTally b.pieceMap 5 9 := by
  simp only [_material_score, Board.pieces, List.foldl_cons, List.foldl_nil, typeTally,
    List.length_map, ← List.countP_eq_length_filter]
  ring

/-- The piece-map material count rewrites to the summed contributions. -/
theorem material_wmb_as_sum (b : Board) :
    _material_white_minus_black b = (b.pieceMap.map colorContribution).sum := by
  show b.pieceMap.foldl (fun a e => a + colorContribution e) 0 =
    (b.pieceMap.map colorContribution).sum
  rw [foldl_add_eq_sum]
  simp

/-- C9: the two material-count functions of the source agree on every
board: `_material_white_minus_black` (a fold over the piece map with the
`PIECE_VALUE` table, king worth 0) equals `_material_score` (per-type square
counts with pawn 1, knight and bishop 3, rook 5, queen 9). -/
theorem material_functions_agree (b : Board) :
    _material_white_minus_black b = _material_score b := by
  rw [material_wmb_as_sum, material_score_as_tallies, sum_contrib_eq_tallies]

end ChessEmb
